import Mathlib

/-!
Shallow embedding of the goniometer model construction subsystem of dxtbx
(file src/dxtbx/model/goniometer.py).

Conventions of the embedding:
* scalar values (vector components, angles, matrix entries) are rationals;
* Python dictionaries are association lists with unique keys, updated in
  insertion order exactly as CPython dictionaries are;
* a Python exception is an error value: functions that can raise return
  Except String (or pair the final state with an Option String error);
* the phil override paths of the source mutate the reference object in
  place, so their embeddings return the final state of the reference
  together with the error, mirroring the fact that a raised exception
  leaves the mutations already performed in place;
* floating-point trigonometry (math.cos, math.sin) is kept abstract: the
  kappa construction takes the degree cosine and sine functions as
  parameters instead of computing them.
-/

/-- A single-axis goniometer model (the Goniometer class of the compiled
extension dxtbx_model_ext): one rotation axis plus fixed and setting
rotation matrices stored as 9 row-major entries. -/
structure Goniometer where
  rotation_axis : List ℚ
  fixed_rotation : List ℚ
  setting_rotation : List ℚ
deriving DecidableEq, Repr

/-- Modelled from the spec: the zero-argument constructor Goniometer() of
the compiled extension class (not part of the Python sources) yields the
canonical single-axis model, axis (1,0,0) with identity fixed and setting
rotations. -/
def Goniometer.default : Goniometer :=
  ⟨[1, 0, 0], [1, 0, 0, 0, 1, 0, 0, 0, 1], [1, 0, 0, 0, 1, 0, 0, 0, 1]⟩

/-- A multi-axis goniometer model (the MultiAxisGoniometer class of the
compiled extension): axes in crystal-to-base order with their angles,
names and the scan axis index. -/
structure MultiAxisGoniometer where
  axes : List (List ℚ)
  angles : List ℚ
  names : List String
  scan_axis : Int
deriving DecidableEq, Repr

/-- Either kind of goniometer model, as distinguished at runtime by
isinstance checks in the Python sources. -/
inductive GonioModel where
  | single (g : Goniometer)
  | multi (g : MultiAxisGoniometer)
deriving DecidableEq, Repr

/-- A value stored in a serialized goniometer dictionary. -/
inductive DVal where
  | nums (xs : List ℚ)
  | vecs (xs : List (List ℚ))
  | strs (xs : List String)
  | int (n : Int)
deriving DecidableEq, Repr

/-- A serialized goniometer dictionary: an association list with unique
keys in insertion order, the embedding of a Python dict. -/
abbrev GonioDict := List (String × DVal)

/-- Key membership test of a Python dict. -/
def hasKey (d : GonioDict) (k : String) : Bool :=
  (List.lookup k d).isSome

/-- Python dict.update semantics: keys already in the base keep their
position but take the updating value, fresh keys of the update are
appended in order. -/
def dictUpdate (base upd : GonioDict) : GonioDict :=
  base.map (fun kv =>
    match List.lookup kv.1 upd with
    | some v => (kv.1, v)
    | none => kv) ++
  upd.filter (fun kv => (List.lookup kv.1 base).isNone)

def DVal.asNums : DVal → List ℚ
  | .nums xs => xs
  | _ => []

def DVal.asVecs : DVal → List (List ℚ)
  | .vecs xs => xs
  | _ => []

def DVal.asStrs : DVal → List String
  | .strs xs => xs
  | _ => []

def DVal.asInt : DVal → Int
  | .int n => n
  | _ => 0

/-- Modelled from the spec: MultiAxisGoniometer.from_dict is implemented in
the compiled extension module dxtbx_model_ext, which is not among the
Python sources; per the spec it reads the axes, angles, names and
scan_axis entries of the flat dictionary. -/
def MultiAxisGoniometer.from_dict (d : GonioDict) : MultiAxisGoniometer :=
  ⟨((List.lookup "axes" d).getD (.vecs [])).asVecs,
   ((List.lookup "angles" d).getD (.nums [])).asNums,
   ((List.lookup "names" d).getD (.strs [])).asStrs,
   ((List.lookup "scan_axis" d).getD (.int 0)).asInt⟩

/-- Modelled from the spec: Goniometer.from_dict is implemented in the
compiled extension module dxtbx_model_ext, which is not among the Python
sources; per the spec it reads rotation_axis, fixed_rotation and
setting_rotation with the canonical defaults. -/
def Goniometer.from_dict (d : GonioDict) : Goniometer :=
  ⟨((List.lookup "rotation_axis" d).getD (.nums [1, 0, 0])).asNums,
   ((List.lookup "fixed_rotation" d).getD
      (.nums [1, 0, 0, 0, 1, 0, 0, 0, 1])).asNums,
   ((List.lookup "setting_rotation" d).getD
      (.nums [1, 0, 0, 0, 1, 0, 0, 0, 1])).asNums⟩

/-- GoniometerFactory.from_dict: merge the template dictionary under the
explicit one and dispatch on the simultaneous presence of the three keys
axes, angles and scan_axis.  Calling it with d = None and a non-None
template raises (dict.update(None) is a TypeError in Python). -/
def GoniometerFactory.from_dict (d t : Option GonioDict) :
    Except String (Option GonioModel) :=
  match d, t with
  | none, none => .ok none
  | none, some _ => .error "TypeError: NoneType object is not iterable"
  | some d0, t =>
    let joint := dictUpdate (t.getD []) d0
    if hasKey joint "axes" && hasKey joint "angles" && hasKey joint "scan_axis" then
      .ok (some (.multi (MultiAxisGoniometer.from_dict joint)))
    else
      .ok (some (.single (Goniometer.from_dict joint)))

/-- True exactly when a factory result is a successfully deserialized
multi-axis model. -/
def isMultiResult : Except String (Option GonioModel) → Bool
  | .ok (some (.multi _)) => true
  | _ => false

/-- True exactly when a factory result is a successfully deserialized
single-axis model. -/
def isSingleResult : Except String (Option GonioModel) → Bool
  | .ok (some (.single _)) => true
  | _ => false

/-- C2: for every explicit dictionary d0 and optional template t accepted
by from_dict, the merged dictionary (template as base defaults, d0
overriding) deserializes to a multi-axis goniometer exactly when the three
keys axes, angles and scan_axis are all present in the merged dictionary,
and to a single-axis goniometer in every other key combination. -/
theorem from_dict_multi_axis_discriminator (d0 : GonioDict) (t : Option GonioDict) :
    isMultiResult (GoniometerFactory.from_dict (some d0) t) =
      (hasKey (dictUpdate (t.getD []) d0) "axes" &&
       hasKey (dictUpdate (t.getD []) d0) "angles" &&
       hasKey (dictUpdate (t.getD []) d0) "scan_axis") ∧
    isSingleResult (GoniometerFactory.from_dict (some d0) t) =
      !(hasKey (dictUpdate (t.getD []) d0) "axes" &&
        hasKey (dictUpdate (t.getD []) d0) "angles" &&
        hasKey (dictUpdate (t.getD []) d0) "scan_axis") := by
  by_cases h1 : hasKey (dictUpdate (t.getD []) d0) "axes" = true <;>
  by_cases h2 : hasKey (dictUpdate (t.getD []) d0) "angles" = true <;>
  by_cases h3 : hasKey (dictUpdate (t.getD []) d0) "scan_axis" = true <;>
  simp [GoniometerFactory.from_dict, isMultiResult, isSingleResult, h1, h2, h3]

/-- C10: from_dict with d = None but a non-None template raises instead of
building a model from the template alone, and from_dict returns None
exactly when both the dictionary and the template are None. -/
theorem from_dict_none_requires_both_none :
    (∀ t : GonioDict, GoniometerFactory.from_dict none (some t) =
        .error "TypeError: NoneType object is not iterable") ∧
    (∀ d t : Option GonioDict,
        GoniometerFactory.from_dict d t = .ok none ↔ d = none ∧ t = none) := by
  refine ⟨fun t => rfl, fun d t => ?_⟩
  cases d <;> cases t
  · simp [GoniometerFactory.from_dict]
  · simp [GoniometerFactory.from_dict]
  · simp only [GoniometerFactory.from_dict]
    split <;> simp
  · simp only [GoniometerFactory.from_dict]
    split <;> simp

/-- The goniometer block of the phil parameter scope: every option is
optional (None when not set), invert_rotation_axis defaults to False. -/
structure GoniometerParams where
  axis : Option (List ℚ) := none
  axes : Option (List ℚ) := none
  angles : Option (List ℚ) := none
  names : Option (List String) := none
  scan_axis : Option Int := none
  fixed_rotation : Option (List ℚ) := none
  setting_rotation : Option (List ℚ) := none
  invert_rotation_axis : Bool := false
deriving DecidableEq, Repr

/-- Python truthiness of an optional float list: None and the empty list
are falsy, every non-empty list is truthy. -/
def truthyFloats : Option (List ℚ) → Bool
  | none => false
  | some l => !l.isEmpty

/-- Grouping of a flat float list into consecutive triples, the embedding
of the slice comprehension over range(len(axes) // 3). -/
def group3 : List ℚ → List (List ℚ)
  | a :: b :: c :: rest => [a, b, c] :: group3 rest
  | _ => []

/-- GoniometerFactory.single_axis_goniometer_from_phil.  The result pairs
the final state of the goniometer object with the error of the raised
exception, if any; for a fresh construction the reference is none and the
default Goniometer() is used.  All checks of this path run before any
setter, so a failing call leaves the reference untouched. -/
def single_axis_goniometer_from_phil (p : GoniometerParams)
    (reference : Option Goniometer) : Goniometer × Option String :=
  let axis := match p.axis with
    | none => p.axes
    | some a => some a
  let g0 := reference.getD Goniometer.default
  if axis.any (fun a => a.length != 3) then
    (g0, some "Single axis goniometer requires 3 axis values")
  else if p.angles.isSome then
    (g0, some "Single axis goniometer requires angles == None")
  else if p.names.isSome then
    (g0, some "Single axis goniometer requires names == None")
  else
    let g1 := match axis with
      | some a => { g0 with rotation_axis := a }
      | none => g0
    let g2 := match p.fixed_rotation with
      | some f => { g1 with fixed_rotation := f }
      | none => g1
    let g3 := match p.setting_rotation with
      | some s => { g2 with setting_rotation := s }
      | none => g2
    let g4 := if p.invert_rotation_axis then
        { g3 with rotation_axis := g3.rotation_axis.map Neg.neg }
      else g3
    (g4, none)

/-- One early-exit step of the stateful override path: propagate an error
with the state reached so far, otherwise continue from the current
state. -/
def thenStep (r : MultiAxisGoniometer × Option String)
    (f : MultiAxisGoniometer → MultiAxisGoniometer × Option String) :
    MultiAxisGoniometer × Option String :=
  match r with
  | (g, some e) => (g, some e)
  | (g, none) => f g

/-- Override step: set the axes from the flat axes option after the length
check against the current goniometer. -/
def setAxesStep (p : GoniometerParams) (g : MultiAxisGoniometer) :
    MultiAxisGoniometer × Option String :=
  match p.axes with
  | none => (g, none)
  | some flat =>
    let axes := group3 flat
    if g.axes.length ≠ axes.length then
      (g, some "Number of axes must match the current goniometer")
    else
      ({ g with axes := axes }, none)

/-- Override step: negate every axis when invert_rotation_axis is set. -/
def invertAxesStep (p : GoniometerParams) (g : MultiAxisGoniometer) :
    MultiAxisGoniometer × Option String :=
  if p.invert_rotation_axis then
    ({ g with axes := g.axes.map (List.map Neg.neg) }, none)
  else (g, none)

/-- Override step: set the angles after the length check. -/
def setAnglesStep (p : GoniometerParams) (g : MultiAxisGoniometer) :
    MultiAxisGoniometer × Option String :=
  match p.angles with
  | none => (g, none)
  | some angles =>
    if g.angles.length ≠ angles.length then
      (g, some "Number of angles must match the current goniometer")
    else
      ({ g with angles := angles }, none)

/-- Override step: set the names after the length check. -/
def setNamesStep (p : GoniometerParams) (g : MultiAxisGoniometer) :
    MultiAxisGoniometer × Option String :=
  match p.names with
  | none => (g, none)
  | some names =>
    if g.names.length ≠ names.length then
      (g, some "Number of names must match the current goniometer")
    else
      ({ g with names := names }, none)

/-- Override step: any supplied scan_axis raises unconditionally. -/
def scanAxisStep (p : GoniometerParams) (g : MultiAxisGoniometer) :
    MultiAxisGoniometer × Option String :=
  if p.scan_axis.isSome then (g, some "Can not override scan axis")
  else (g, none)

/-- GoniometerFactory.multi_axis_goniometer_from_phil with a reference:
the reference object is mutated in place by each successful step, and a
raised exception leaves the mutations made so far applied; the result is
the final state of the reference paired with the error, if any. -/
def multi_axis_goniometer_from_phil_ref (p : GoniometerParams)
    (g0 : MultiAxisGoniometer) : MultiAxisGoniometer × Option String :=
  if p.axes.any (fun a => a.length % 3 != 0) then
    (g0, some "Number of values for axes parameter must be multiple of 3.")
  else if p.fixed_rotation.isSome then
    (g0, some "Multi-axis goniometer requires fixed_rotation == None")
  else if p.setting_rotation.isSome then
    (g0, some "Multi-axis goniometer requires setting_rotation == None")
  else
    thenStep (setAxesStep p g0) (fun g1 =>
      thenStep (invertAxesStep p g1) (fun g2 =>
        thenStep (setAnglesStep p g2) (fun g3 =>
          thenStep (setNamesStep p g3) (fun g4 =>
            scanAxisStep p g4))))

/-- GoniometerFactory.multi_axis_goniometer_from_phil without a reference:
fresh construction of a multi-axis goniometer from the options. -/
def multi_axis_goniometer_from_phil_fresh (p : GoniometerParams) :
    Except String MultiAxisGoniometer :=
  if p.axes.any (fun a => a.length % 3 != 0) then
    .error "Number of values for axes parameter must be multiple of 3."
  else if p.fixed_rotation.isSome then
    .error "Multi-axis goniometer requires fixed_rotation == None"
  else if p.setting_rotation.isSome then
    .error "Multi-axis goniometer requires setting_rotation == None"
  else
    match p.axes with
    | none => .error "No axes set"
    | some flat =>
      let axes0 := group3 flat
      let axes := if p.invert_rotation_axis then
          axes0.map (List.map Neg.neg)
        else axes0
      match p.angles with
      | some angles =>
        if angles.length ≠ axes.length then
          .error "Number of angles must match axes"
        else
          match p.names with
          | some names =>
            if names.length ≠ axes.length then
              .error "Number of names must match axes"
            else
              .ok ⟨axes, angles, names, (p.scan_axis.getD 0)⟩
          | none =>
            .ok ⟨axes, angles, List.replicate axes.length "",
                 (p.scan_axis.getD 0)⟩
      | none =>
        match p.names with
        | some names =>
          if names.length ≠ axes.length then
            .error "Number of names must match axes"
          else
            .ok ⟨axes, List.replicate axes.length 0, names,
                 (p.scan_axis.getD 0)⟩
        | none =>
          .ok ⟨axes, List.replicate axes.length 0,
               List.replicate axes.length "", (p.scan_axis.getD 0)⟩

/-- GoniometerFactory.from_phil: the conflict check on axis and axes runs
first (with Python truthiness), then the call dispatches on the reference
kind, or, without a reference, on the number of axis values supplied. -/
def from_phil (p : GoniometerParams) (reference : Option GonioModel) :
    Except String (Option GonioModel) :=
  if truthyFloats p.axis && truthyFloats p.axes then
    .error "Only one of axis or axes should be set"
  else
    match reference with
    | some (.multi g) =>
      match multi_axis_goniometer_from_phil_ref p g with
      | (_, some e) => .error e
      | (g1, none) => .ok (some (.multi g1))
    | some (.single g) =>
      match single_axis_goniometer_from_phil p (some g) with
      | (_, some e) => .error e
      | (g1, none) => .ok (some (.single g1))
    | none =>
      if truthyFloats p.axes && decide (3 < (p.axes.getD []).length) then
        match multi_axis_goniometer_from_phil_fresh p with
        | .error e => .error e
        | .ok g => .ok (some (.multi g))
      else if truthyFloats p.axis || truthyFloats p.axes then
        match single_axis_goniometer_from_phil p none with
        | (_, some e) => .error e
        | (g1, none) => .ok (some (.single g1))
      else
        .ok none

/-- GoniometerFactory.make_goniometer: a single-axis model from the given
rotation axis and fixed rotation, with the default identity setting
rotation of the Goniometer constructor. -/
def make_goniometer (rotation_axis fixed_rotation : List ℚ) : Goniometer :=
  ⟨rotation_axis, fixed_rotation, [1, 0, 0, 0, 1, 0, 0, 0, 1]⟩

/-- GoniometerFactory.single_axis: the canonical single-axis goniometer in
the CBF reference frame. -/
def single_axis : Goniometer :=
  make_goniometer [1, 0, 0] [1, 0, 0, 0, 1, 0, 0, 0, 1]

/-- GoniometerFactory.single_axis_reverse: the canonical single-axis
goniometer, reversed in rotation. -/
def single_axis_reverse : Goniometer :=
  make_goniometer [-1, 0, 0] [1, 0, 0, 0, 1, 0, 0, 0, 1]

/-- GoniometerFactory.make_multi_axis_goniometer: direct pass-through to
the MultiAxisGoniometer constructor. -/
def make_multi_axis_goniometer (axes : List (List ℚ)) (angles : List ℚ)
    (names : List String) (scan_axis : Int) : MultiAxisGoniometer :=
  ⟨axes, angles, names, scan_axis⟩

/-- GoniometerFactory.make_kappa_goniometer.  The source computes
c = math.cos(alpha * pi / 180) and s = math.sin(alpha * pi / 180) in
floating point; the embedding keeps the degree cosine and sine as the
function parameters cosd and sind, so c = cosd alpha and s = sind alpha
exactly as in the source, with the transcendental evaluation abstract. -/
def make_kappa_goniometer (cosd sind : ℚ → ℚ) (alpha omega kappa phi : ℚ)
    (direction scan_axis : String) : Except String MultiAxisGoniometer :=
  let omega_axis : List ℚ := [1, 0, 0]
  let phi_axis : List ℚ := [1, 0, 0]
  let c := cosd alpha
  let s := sind alpha
  let kappa_axis : Option (List ℚ) :=
    if direction = "+y" then some [c, s, 0]
    else if direction = "+z" then some [c, 0, s]
    else if direction = "-y" then some [c, -s, 0]
    else if direction = "-z" then some [c, 0, -s]
    else none
  match kappa_axis with
  | none => .error "Invalid direction"
  | some kappa_axis =>
    let sa : Int := if scan_axis = "phi" then 0 else 2
    .ok (make_multi_axis_goniometer [phi_axis, kappa_axis, omega_axis]
      [phi, kappa, omega] ["PHI", "KAPPA", "OMEGA"] sa)

/-- GoniometerFactory.kappa: delegates to make_kappa_goniometer. -/
def kappa (cosd sind : ℚ → ℚ) (alpha omega kappa phi : ℚ)
    (direction scan_axis : String) : Except String MultiAxisGoniometer :=
  make_kappa_goniometer cosd sind alpha omega kappa phi direction scan_axis

/-- One row of the axis category of an imgCIF header, as read by the first
loop of GoniometerFactory.imgCIF_H: equipment role, axis id, direction
vector and the depends_on value. -/
structure CbfAxisRow where
  equipment : String
  id : String
  vector : List ℚ
  depends_on : String
deriving DecidableEq, Repr

/-- One row of the diffrn_scan_axis category of an imgCIF header: axis id,
starting angle and angle increment. -/
structure CbfScanRow where
  axis_id : String
  angle_start : ℚ
  angle_increment : ℚ
deriving DecidableEq, Repr

/-- Insert-or-replace on an association list with unique keys: the
embedding of a Python dict assignment. -/
def upsert {α : Type} (k : String) (v : α) :
    List (String × α) → List (String × α)
  | [] => [(k, v)]
  | kv :: rest =>
    if kv.1 = k then (k, v) :: rest else kv :: upsert k v rest

/-- First loop of imgCIF_H, processing the rows in header order with the
dictionaries as accumulators, so that a later assignment to an existing
key wins as in Python. -/
def buildAxisMapsAux : List CbfAxisRow → List (String × List ℚ) →
    List (String × String) → List (String × List ℚ) × List (String × String)
  | [], av, dep => (av, dep)
  | r :: rest, av, dep =>
    if r.equipment = "goniometer" then
      buildAxisMapsAux rest (upsert r.id r.vector av) (upsert r.depends_on r.id dep)
    else
      buildAxisMapsAux rest av dep

/-- First loop of imgCIF_H: rows whose equipment is goniometer fill the
axis_vectors dict (id to vector) and the dependants dict (depends_on value
to id).  Returns (axis_vectors, dependants). -/
def buildAxisMaps (rows : List CbfAxisRow) :
    List (String × List ℚ) × List (String × String) :=
  buildAxisMapsAux rows [] []

/-- Python truthiness of the scan_axis variable of imgCIF_H: None and the
empty string are falsy. -/
def truthyStr : Option String → Bool
  | none => false
  | some s => !s.isEmpty

/-- Second loop of imgCIF_H: walk the diffrn_scan_axis rows, record the
starting angle of every axis that has a vector, and remember the single
axis with a nonzero angle increment; a second nonzero increment raises. -/
def scanAxisLoop (axis_vectors : List (String × List ℚ)) :
    List CbfScanRow → List (String × ℚ) → Option String →
    Except String (List (String × ℚ) × Option String)
  | [], angles, sa => .ok (angles, sa)
  | r :: rest, angles, sa =>
    if (List.lookup r.axis_id axis_vectors).isNone then
      scanAxisLoop axis_vectors rest angles sa
    else
      let angles1 := upsert r.axis_id r.angle_start angles
      if r.angle_increment ≠ 0 then
        if truthyStr sa then
          .error "More than one scan axis is defined: not currently supported."
        else
          scanAxisLoop axis_vectors rest angles1 (some r.axis_id)
      else
        scanAxisLoop axis_vectors rest angles1 sa

/-- The state of the while-loop variable of the dependency walk of
imgCIF_H after n lookups, starting from the given optional axis name. -/
def stepFrom (dep : List (String × String)) :
    Option String → Nat → Option String
  | o, 0 => o
  | none, _ + 1 => none
  | some a, n + 1 => stepFrom dep (List.lookup a dep) n

/-- The state of the while-loop variable after n lookups starting from the
sentinel root lookup dependants.get("."). -/
def stepN (dep : List (String × String)) (n : Nat) : Option String :=
  stepFrom dep (List.lookup "." dep) n

/-- The ordered axis names collected by the dependency walk of imgCIF_H,
bounded by the given fuel.  The source has no such bound: its while-loop
runs until the lookup fails, so it agrees with this function at any fuel
at which the walk has already reached a failing lookup, and does not
terminate when no such fuel exists. -/
def walkChain (dep : List (String × String)) :
    Nat → Option String → List String
  | 0, _ => []
  | _ + 1, none => []
  | n + 1, some a => a :: walkChain dep n (List.lookup a dep)

/-- The base-to-crystal chain collected from the sentinel root. -/
def chain (dep : List (String × String)) (fuel : Nat) : List String :=
  walkChain dep fuel (List.lookup "." dep)

/-- Zero-based index of the first occurrence of an element, None when
absent: the embedding of Python list.index, which raises on a miss. -/
def listIndex (x : String) : List String → Option Nat
  | [] => none
  | y :: rest =>
    if y = x then some 0 else (listIndex x rest).map (· + 1)

/-- GoniometerFactory.imgCIF_H from the point at which the header has been
read into the axis and diffrn_scan_axis rows.  The fuel parameter bounds
the dependency walk, which is unbounded in the source (see walkChain). -/
def imgCIF_H (fuel : Nat) (axisRows : List CbfAxisRow)
    (scanRows : List CbfScanRow) : Except String MultiAxisGoniometer :=
  let maps := buildAxisMaps axisRows
  let axis_vectors := maps.1
  let dependants := maps.2
  match scanAxisLoop axis_vectors scanRows [] none with
  | .error e => .error e
  | .ok (angles, scan_axis) =>
    if axis_vectors.length ≠ angles.length then
      .error "The number of goniometer axes specified in the axis category of the raw data does not match the number specified in the diffrn_scan_axis category."
    else
      let ordered := (chain dependants fuel).reverse
      let axes := ordered.map (fun a => (List.lookup a axis_vectors).getD [])
      let angs := ordered.map (fun a => (List.lookup a angles).getD 0)
      let saRes : Except String Int :=
        match scan_axis with
        | some s =>
          if s.isEmpty then .ok 0
          else
            match listIndex s ordered with
            | some i => .ok (i : Int)
            | none => .error "ValueError: scan axis is not in the ordered axis list"
        | none => .ok 0
      match saRes with
      | .error e => .error e
      | .ok sa => .ok (make_multi_axis_goniometer axes angs ordered sa)

instance {e a : Type} [DecidableEq e] [DecidableEq a] : DecidableEq (Except e a) :=
  fun x y =>
    match x, y with
    | .ok u, .ok v => decidable_of_iff (u = v) (by simp)
    | .error u, .error v => decidable_of_iff (u = v) (by simp)
    | .ok _, .error _ => isFalse (fun h => Except.noConfusion h)
    | .error _, .ok _ => isFalse (fun h => Except.noConfusion h)

theorem walkChain_none (dep : List (String × String)) (n : Nat) :
    walkChain dep n none = [] := by
  cases n <;> rfl

/-- Once the while-loop variable of the dependency walk has become None
within k lookups, the collected chain is the same at any fuel of at least
k: the bounded walk agrees with the unbounded loop of the source. -/
theorem walkChain_stable (dep : List (String × String)) :
    ∀ (k : Nat) (o : Option String) (m : Nat), stepFrom dep o k = none →
      k ≤ m → walkChain dep m o = walkChain dep k o := by
  intro k
  induction k with
  | zero =>
    intro o m h _
    simp only [stepFrom] at h
    subst h
    exact (walkChain_none dep m).trans (walkChain_none dep 0).symm
  | succ k ih =>
    intro o m h hm
    cases o with
    | none => exact (walkChain_none dep m).trans (walkChain_none dep (k + 1)).symm
    | some a =>
      obtain ⟨m', rfl⟩ : ∃ m', m = m' + 1 := ⟨m - 1, by omega⟩
      simp only [stepFrom] at h
      simp only [walkChain]
      rw [ih (List.lookup a dep) m' h (by omega)]

theorem chain_stable (dep : List (String × String)) (k m : Nat)
    (h : stepN dep k = none) (hm : k ≤ m) : chain dep m = chain dep k :=
  walkChain_stable dep k (List.lookup "." dep) m h hm

/-- The result of imgCIF_H depends on the fuel only through the collected
chain. -/
theorem imgCIF_H_fuel_eq (f1 f2 : Nat) (a : List CbfAxisRow)
    (s : List CbfScanRow)
    (h : chain (buildAxisMaps a).2 f1 = chain (buildAxisMaps a).2 f2) :
    imgCIF_H f1 a s = imgCIF_H f2 a s := by
  simp only [imgCIF_H, h]

/-- The axis table of the resolver round-trip example: A with vector
(1,0,0) depending on the root, B with vector (0,1,0) depending on A. -/
def c5_axis_rows : List CbfAxisRow :=
  [⟨"goniometer", "A", [1, 0, 0], "."⟩, ⟨"goniometer", "B", [0, 1, 0], "A"⟩]

/-- The scan table of the resolver round-trip example: A starts at 0 with
increment 0, B starts at 10 with increment 1. -/
def c5_scan_rows : List CbfScanRow := [⟨"A", 0, 0⟩, ⟨"B", 10, 1⟩]

/-- C5 counterexample: on the example header the resolver returns the
crystal-to-base order [B, A] as claimed, but with scan_axis index 0
(pointing at B, the axis with the nonzero increment), not index 1 pointing
at A; the walk has terminated within two lookups, so fuel 2 reproduces the
unbounded loop of the source. -/
theorem imgCIF_H_example_scan_axis_counterexample :
    imgCIF_H 2 c5_axis_rows c5_scan_rows =
      .ok (make_multi_axis_goniometer [[0, 1, 0], [1, 0, 0]] [10, 0] ["B", "A"] 0) ∧
    stepN (buildAxisMaps c5_axis_rows).2 2 = none ∧
    ¬ (imgCIF_H 2 c5_axis_rows c5_scan_rows =
        .ok (make_multi_axis_goniometer [[0, 1, 0], [1, 0, 0]] [10, 0] ["B", "A"] 1)) := by
  decide

/-- C5 (amended): for the header dataset with axis table A:(1,0,0)
depending on ROOT and B:(0,1,0) depending on A, and scan data A start 0
increment 0, B start 10 increment 1, resolution yields the crystal-to-base
order [B, A] with scan_axis index 0 pointing at B, the axis with the
nonzero increment, at every sufficient walk bound. -/
theorem imgCIF_H_example_resolution : ∀ fuel : Nat, 2 ≤ fuel →
    imgCIF_H fuel c5_axis_rows c5_scan_rows =
      .ok (make_multi_axis_goniometer [[0, 1, 0], [1, 0, 0]] [10, 0] ["B", "A"] 0) := by
  intro fuel hf
  rw [imgCIF_H_fuel_eq fuel 2 c5_axis_rows c5_scan_rows
    (chain_stable _ 2 fuel (by decide) hf)]
  decide

/-- Witness for the amended C5 statement at fuel 5. -/
theorem imgCIF_H_example_resolution_witness :
    imgCIF_H 5 c5_axis_rows c5_scan_rows =
      .ok (make_multi_axis_goniometer [[0, 1, 0], [1, 0, 0]] [10, 0] ["B", "A"] 0) :=
  imgCIF_H_example_resolution 5 (by decide)

/-- A disconnected axis table: A depends on the root, but B depends on C,
which never appears, so B is unreachable from the sentinel root. -/
def c1_axis_rows : List CbfAxisRow :=
  [⟨"goniometer", "A", [1, 0, 0], "."⟩, ⟨"goniometer", "B", [0, 1, 0], "C"⟩]

/-- Scan data for the disconnected table: both axes still (increment 0),
so the angle-count check passes and no scan-axis index lookup occurs. -/
def c1_scan_rows : List CbfScanRow := [⟨"A", 0, 0⟩, ⟨"B", 0, 0⟩]

/-- A cyclic axis table reachable from the root: the dependants dict it
produces maps "." to A, A to B and B to A. -/
def c1_cyclic_rows : List CbfAxisRow :=
  [⟨"goniometer", "A", [1, 0, 0], "."⟩, ⟨"goniometer", "B", [0, 1, 0], "A"⟩,
   ⟨"goniometer", "A", [1, 0, 0], "B"⟩]

/-- C1 counterexample: on the disconnected table the resolver returns a
model built from the single reachable axis A even though two axes carry
vectors; the collected chain is shorter than the axis-vector dict, yet no
MalformedAxisGraph error is raised (the walk terminated within one lookup,
so fuel 2 reproduces the unbounded loop of the source). -/
theorem imgCIF_H_disconnected_counterexample :
    imgCIF_H 2 c1_axis_rows c1_scan_rows =
      .ok (make_multi_axis_goniometer [[1, 0, 0]] [0] ["A"] 0) ∧
    (buildAxisMaps c1_axis_rows).1.length = 2 ∧
    stepN (buildAxisMaps c1_axis_rows).2 1 = none := by
  decide

/-- On the cyclic dependants dict the while-loop variable alternates
between A and B forever. -/
theorem cyc_step_two_cycle : ∀ (n : Nat) (o : Option String),
    (o = some "A" ∨ o = some "B") →
    (stepFrom (buildAxisMaps c1_cyclic_rows).2 o n = some "A" ∨
     stepFrom (buildAxisMaps c1_cyclic_rows).2 o n = some "B") := by
  intro n
  induction n with
  | zero =>
    intro o h
    simpa [stepFrom] using h
  | succ n ih =>
    intro o h
    rcases h with rfl | rfl
    · have hl : List.lookup "A" (buildAxisMaps c1_cyclic_rows).2 = some "B" := by
        decide
      simp only [stepFrom, hl]
      exact ih _ (Or.inr rfl)
    · have hl : List.lookup "B" (buildAxisMaps c1_cyclic_rows).2 = some "A" := by
        decide
      simp only [stepFrom, hl]
      exact ih _ (Or.inl rfl)

/-- C1 (amended): the resolver performs no chain-length check and raises
no MalformedAxisGraph error.  On the disconnected table it silently
returns a model containing only the axes reachable from the sentinel root
(at every fuel at which the terminated walk is reproduced), and on the
cyclic table the while-loop condition of the dependency walk never becomes
false, so the source loop does not terminate. -/
theorem imgCIF_H_no_malformed_graph_detection :
    (∀ fuel : Nat, 1 ≤ fuel →
      imgCIF_H fuel c1_axis_rows c1_scan_rows =
        .ok (make_multi_axis_goniometer [[1, 0, 0]] [0] ["A"] 0)) ∧
    (∀ n : Nat, (stepN (buildAxisMaps c1_cyclic_rows).2 n).isSome = true) := by
  constructor
  · intro fuel hf
    rw [imgCIF_H_fuel_eq fuel 1 c1_axis_rows c1_scan_rows
      (chain_stable _ 1 fuel (by decide) hf)]
    decide
  · intro n
    have hroot : List.lookup "." (buildAxisMaps c1_cyclic_rows).2 = some "A" := by
      decide
    have h := cyc_step_two_cycle n (some "A") (Or.inl rfl)
    simp only [stepN, hroot]
    rcases h with h | h <;> simp [h]

/-- Witness for the amended C1 statement at fuel 3. -/
theorem imgCIF_H_no_malformed_graph_detection_witness :
    imgCIF_H 3 c1_axis_rows c1_scan_rows =
      .ok (make_multi_axis_goniometer [[1, 0, 0]] [0] ["A"] 0) :=
  imgCIF_H_no_malformed_graph_detection.1 3 (by decide)

/-- A one-axis reference goniometer used in the override examples. -/
def c3_ref : MultiAxisGoniometer := ⟨[[1, 0, 0]], [0], ["OMEGA"], 0⟩

/-- Override options supplying both a valid axes replacement and a
scan_axis value. -/
def c3_params : GoniometerParams := { axes := some [0, 1, 0], scan_axis := some 0 }

/-- C3 counterexample: an override call that supplies a valid axes
replacement together with scan_axis fails (at the scan_axis check), yet
the reference has already been mutated: its axes are no longer the axes it
held before the call. -/
theorem multi_axis_override_mutation_counterexample :
    (multi_axis_goniometer_from_phil_ref c3_params c3_ref).2.isSome = true ∧
    (multi_axis_goniometer_from_phil_ref c3_params c3_ref).1.axes ≠ c3_ref.axes := by
  decide

/-- C3 (amended): failures are raised synchronously at the first failing
check and a failed call returns no model, but the override path mutates
the reference in place as it runs, so a check that fails after an earlier
field was set leaves that mutation on the reference; the reference is
guaranteed unchanged only when no setter runs before the failure, as when
none of axes, invert_rotation_axis, angles and names is supplied. -/
theorem multi_axis_override_failure_behavior :
    ∀ (p : GoniometerParams) (g : MultiAxisGoniometer),
      p.axes = none → p.invert_rotation_axis = false → p.angles = none →
      p.names = none →
      multi_axis_goniometer_from_phil_ref p g =
        (g, if p.fixed_rotation.isSome then
              some "Multi-axis goniometer requires fixed_rotation == None"
            else if p.setting_rotation.isSome then
              some "Multi-axis goniometer requires setting_rotation == None"
            else if p.scan_axis.isSome then
              some "Can not override scan axis"
            else none) := by
  rintro ⟨pa, pax, pan, pnm, psa, pf, ps, pi⟩ g h1 h2 h3 h4
  subst h1 h2 h3 h4
  cases pf <;> cases ps <;> cases psa <;> rfl

/-- Witness for the amended C3 statement: supplying only scan_axis fails
and leaves the reference unchanged. -/
theorem multi_axis_override_failure_behavior_witness :
    multi_axis_goniometer_from_phil_ref { scan_axis := some 0 } c3_ref =
      (c3_ref, some "Can not override scan axis") :=
  multi_axis_override_failure_behavior { scan_axis := some 0 } c3_ref rfl rfl rfl rfl

theorem thenStep_isSome (r : MultiAxisGoniometer × Option String)
    (f : MultiAxisGoniometer → MultiAxisGoniometer × Option String)
    (hf : ∀ g, (f g).2.isSome = true) : (thenStep r f).2.isSome = true := by
  rcases r with ⟨g, e⟩
  cases e <;> simp [thenStep, hf]

/-- C4: supplying any scan_axis value on an override of an existing
multi-axis goniometer makes the call fail, whatever else is supplied; and
with only scan_axis supplied the failure is the cannot-override error,
also when the supplied value equals the current scan axis of the
reference. -/
theorem override_scan_axis_always_fails :
    (∀ (p : GoniometerParams) (g : MultiAxisGoniometer),
      p.scan_axis.isSome = true →
      (multi_axis_goniometer_from_phil_ref p g).2.isSome = true) ∧
    (∀ (g : MultiAxisGoniometer) (v : Int),
      from_phil { scan_axis := some v } (some (.multi g)) =
        .error "Can not override scan axis" ∧
      from_phil { scan_axis := some g.scan_axis } (some (.multi g)) =
        .error "Can not override scan axis") := by
  constructor
  · intro p g h
    simp only [multi_axis_goniometer_from_phil_ref]
    split
    · rfl
    split
    · rfl
    split
    · rfl
    apply thenStep_isSome
    intro g1
    apply thenStep_isSome
    intro g2
    apply thenStep_isSome
    intro g3
    apply thenStep_isSome
    intro g4
    simp [scanAxisStep, h]
  · exact fun g v => ⟨rfl, rfl⟩

/-- Witness for C4 at a concrete reference and scan_axis value. -/
theorem override_scan_axis_always_fails_witness :
    (multi_axis_goniometer_from_phil_ref { scan_axis := some 2 } c3_ref).2.isSome = true :=
  override_scan_axis_always_fails.1 { scan_axis := some 2 } c3_ref rfl

/-- C6: the kappa preset at alpha 50, all angles 0, direction +y and scan
axis omega yields axes [(1,0,0), (cos 50 deg, sin 50 deg, 0), (1,0,0)]
(with the trigonometric values kept as the abstract cosd and sind of the
embedding), angles [0,0,0], names [PHI, KAPPA, OMEGA] and scan_axis 2; and
any direction outside +y, +z, -y, -z fails with the invalid-direction
error for every argument combination. -/
theorem kappa_preset_example :
    ∀ (cosd sind : ℚ → ℚ),
      kappa cosd sind 50 0 0 0 "+y" "omega" =
        .ok (make_multi_axis_goniometer
          [[1, 0, 0], [cosd 50, sind 50, 0], [1, 0, 0]]
          [0, 0, 0] ["PHI", "KAPPA", "OMEGA"] 2) ∧
      (∀ (alpha omega kappaAng phi : ℚ) (d sa : String),
        d ≠ "+y" → d ≠ "+z" → d ≠ "-y" → d ≠ "-z" →
        kappa cosd sind alpha omega kappaAng phi d sa =
          .error "Invalid direction") := by
  intro cosd sind
  constructor
  · rfl
  · intro alpha omega kappaAng phi d sa h1 h2 h3 h4
    simp [kappa, make_kappa_goniometer, h1, h2, h3, h4]

/-- Witness for C6 at a concrete invalid direction. -/
theorem kappa_preset_example_witness :
    kappa (fun x => x) (fun x => x) 50 0 0 0 "sideways" "omega" =
      .error "Invalid direction" :=
  (kappa_preset_example (fun x => x) (fun x => x)).2 50 0 0 0 "sideways" "omega"
    (by decide) (by decide) (by decide) (by decide)

/-- C7: single_axis and single_axis_reverse carry rotation axes (1,0,0)
and (-1,0,0), exact negations of each other, and their fixed rotation
matrices are both the identity. -/
theorem single_axis_reverse_negation :
    single_axis.rotation_axis = [1, 0, 0] ∧
    single_axis_reverse.rotation_axis = [-1, 0, 0] ∧
    single_axis_reverse.rotation_axis = single_axis.rotation_axis.map Neg.neg ∧
    single_axis.fixed_rotation = single_axis_reverse.fixed_rotation ∧
    single_axis.fixed_rotation = [1, 0, 0, 0, 1, 0, 0, 0, 1] :=
  ⟨rfl, rfl, by decide, rfl, rfl⟩

/-- C8: a configuration that sets both axis and axes (each as a set,
non-empty value, the only values the phil types can produce) fails with
the conflict error for every reference, before any model is built. -/
theorem from_phil_conflicting_axis_spec :
    ∀ (p : GoniometerParams) (r : Option GonioModel) (a b : List ℚ),
      p.axis = some a → a ≠ [] → p.axes = some b → b ≠ [] →
      from_phil p r = .error "Only one of axis or axes should be set" := by
  intro p r a b h1 h2 h3 h4
  have ha : truthyFloats p.axis = true := by
    rw [h1]
    cases a with
    | nil => exact absurd rfl h2
    | cons x xs => rfl
  have hb : truthyFloats p.axes = true := by
    rw [h3]
    cases b with
    | nil => exact absurd rfl h4
    | cons x xs => rfl
  simp [from_phil, ha, hb]

/-- Witness for C8 at a concrete conflicting configuration. -/
theorem from_phil_conflicting_axis_spec_witness :
    from_phil { axis := some [1, 0, 0], axes := some [0, 1, 0, 0, 0, 1] } none =
      .error "Only one of axis or axes should be set" :=
  from_phil_conflicting_axis_spec _ none [1, 0, 0] [0, 1, 0, 0, 0, 1]
    rfl (by decide) rfl (by decide)

/-- With a truthy scan axis already remembered, any further goniometer row
with a nonzero increment makes the scan loop raise the ambiguity error. -/
theorem scanAxisLoop_error_of_nonzero_after (av : List (String × List ℚ)) :
    ∀ (rows : List CbfScanRow) (angles : List (String × ℚ)) (s : String),
      s.isEmpty = false →
      1 ≤ rows.countP (fun r => (List.lookup r.axis_id av).isSome &&
        decide (r.angle_increment ≠ 0)) →
      scanAxisLoop av rows angles (some s) =
        .error "More than one scan axis is defined: not currently supported." := by
  intro rows
  induction rows with
  | nil =>
    intro angles s hs h
    simp [List.countP_nil] at h
  | cons r rest ih =>
    intro angles s hs h
    simp only [scanAxisLoop]
    rcases hlk : List.lookup r.axis_id av with _ | v
    · rw [if_pos (by simp [hlk])]
      refine ih angles s hs ?_
      simpa [List.countP_cons, hlk] using h
    · rw [if_neg (by simp [hlk])]
      by_cases hinc : r.angle_increment = 0
      · rw [if_neg (by simp [hinc])]
        refine ih _ s hs ?_
        simpa [List.countP_cons, hinc] using h
      · rw [if_pos hinc, if_pos (by simp [truthyStr, hs])]

/-- Starting with no scan axis remembered, two or more goniometer rows
with nonzero increments make the scan loop raise the ambiguity error,
provided axis ids are non-empty strings. -/
theorem scanAxisLoop_error_of_two_nonzero (av : List (String × List ℚ)) :
    ∀ (rows : List CbfScanRow) (angles : List (String × ℚ)),
      (∀ r ∈ rows, r.axis_id.isEmpty = false) →
      2 ≤ rows.countP (fun r => (List.lookup r.axis_id av).isSome &&
        decide (r.angle_increment ≠ 0)) →
      scanAxisLoop av rows angles none =
        .error "More than one scan axis is defined: not currently supported." := by
  intro rows
  induction rows with
  | nil =>
    intro angles _ h
    simp [List.countP_nil] at h
  | cons r rest ih =>
    intro angles hn h
    simp only [scanAxisLoop]
    rcases hlk : List.lookup r.axis_id av with _ | v
    · rw [if_pos (by simp [hlk])]
      refine ih angles (fun x hx => hn x (List.mem_cons_of_mem r hx)) ?_
      simpa [List.countP_cons, hlk] using h
    · rw [if_neg (by simp [hlk])]
      by_cases hinc : r.angle_increment = 0
      · rw [if_neg (by simp [hinc])]
        refine ih _ (fun x hx => hn x (List.mem_cons_of_mem r hx)) ?_
        simpa [List.countP_cons, hinc] using h
      · rw [if_pos hinc]
        rw [if_neg (by simp [truthyStr])]
        refine scanAxisLoop_error_of_nonzero_after av rest _ r.axis_id
          (hn r (List.mem_cons_self r rest)) ?_
        simp only [List.countP_cons, hlk, hinc] at h
        simp at h
        rw [if_neg hinc] at h
        simp only [ne_eq, decide_not]
        omega

/-- C9: for every header dataset (with non-empty axis ids, the only ids an
imgCIF header produces) in which two or more goniometer axes carry a
nonzero angle increment, header-derived construction fails with the
ambiguous-scan-axis error, at any walk bound. -/
theorem imgCIF_H_ambiguous_scan_axis (fuel : Nat) (axisRows : List CbfAxisRow)
    (scanRows : List CbfScanRow)
    (hnames : ∀ r ∈ scanRows, r.axis_id.isEmpty = false)
    (htwo : 2 ≤ scanRows.countP (fun r =>
      (List.lookup r.axis_id (buildAxisMaps axisRows).1).isSome &&
      decide (r.angle_increment ≠ 0))) :
    imgCIF_H fuel axisRows scanRows =
      .error "More than one scan axis is defined: not currently supported." := by
  simp only [imgCIF_H]
  rw [scanAxisLoop_error_of_two_nonzero (buildAxisMaps axisRows).1 scanRows []
    hnames htwo]

/-- Witness for C9: two nonzero increments on the example axis table. -/
theorem imgCIF_H_ambiguous_scan_axis_witness :
    imgCIF_H 7 c5_axis_rows [⟨"A", 0, 1⟩, ⟨"B", 0, 2⟩] =
      .error "More than one scan axis is defined: not currently supported." :=
  imgCIF_H_ambiguous_scan_axis 7 c5_axis_rows [⟨"A", 0, 1⟩, ⟨"B", 0, 2⟩]
    (by decide) (by decide)
